import Mathlib

/-!
# Verification of the procedural sunflower's geometry and animation core

Shallow embedding of the flower-animation and flower-geometry code of the
repository (src/hooks/useHeartbeat.js, src/hooks/useFlowerRotation.js,
src/components/Sunflower.jsx, src/lib/deviceDetect.js) and proofs of the
specification's claims about it.

JavaScript numbers are modelled as real numbers extended with a NaN element
(`JSNum`): every arithmetic primitive used by the embedded code propagates
NaN exactly as IEEE-754/JS does on the values the code can reach.  Division
is modelled by real division; in the embedded code every divisor is a
positive constant (1000, 60, 2*pi, segment counts), so the JS infinity
values are unreachable and are not modelled.
-/

open Real

/-- A JavaScript number as the embedded code can observe it: NaN or a real.
(Infinities are unreachable in the embedded fragments, see the file comment.) -/
inductive JSNum where
  | nan : JSNum
  | num : ℝ → JSNum

namespace JSNum

/-- JS `x + y` (NaN-propagating). -/
noncomputable def add : JSNum → JSNum → JSNum
  | nan, _ => nan
  | _, nan => nan
  | num a, num b => num (a + b)

/-- JS `x - y` (NaN-propagating). -/
noncomputable def sub : JSNum → JSNum → JSNum
  | nan, _ => nan
  | _, nan => nan
  | num a, num b => num (a - b)

/-- JS `x * y` (NaN-propagating). -/
noncomputable def mul : JSNum → JSNum → JSNum
  | nan, _ => nan
  | _, nan => nan
  | num a, num b => num (a * b)

/-- JS `x / y` (NaN-propagating; real division — every divisor in the
embedded code is a nonzero constant, so `x/0` never occurs on a real). -/
noncomputable def div : JSNum → JSNum → JSNum
  | nan, _ => nan
  | _, nan => nan
  | num a, num b => num (a / b)

noncomputable instance : Add JSNum := ⟨add⟩
noncomputable instance : Sub JSNum := ⟨sub⟩
noncomputable instance : Mul JSNum := ⟨mul⟩
noncomputable instance : Div JSNum := ⟨div⟩

/-- JS truncation toward zero, as used by the `%` operator. -/
noncomputable def jstrunc (r : ℝ) : ℤ := if 0 ≤ r then ⌊r⌋ else ⌈r⌉

/-- JS `a % b` on finite reals with `b ≠ 0`: remainder with the dividend's sign. -/
noncomputable def jsfmodR (a b : ℝ) : ℝ := a - b * (jstrunc (a / b) : ℝ)

/-- JS `x % y` (NaN-propagating, `x % 0 = NaN`). -/
noncomputable def mod : JSNum → JSNum → JSNum
  | nan, _ => nan
  | _, nan => nan
  | num a, num b => if b = 0 then nan else num (jsfmodR a b)

/-- JS `Math.min` (returns NaN if an argument is NaN). -/
noncomputable def jsMin : JSNum → JSNum → JSNum
  | nan, _ => nan
  | _, nan => nan
  | num a, num b => num (min a b)

/-- JS `Math.max` (returns NaN if an argument is NaN). -/
noncomputable def jsMax : JSNum → JSNum → JSNum
  | nan, _ => nan
  | _, nan => nan
  | num a, num b => num (max a b)

/-- JS `Math.sin` (NaN on NaN). -/
noncomputable def jsSin : JSNum → JSNum
  | nan => nan
  | num a => num (Real.sin a)

/-- JS `Math.pow(x, n)` at a natural literal exponent
(`Math.pow(NaN, 0) = 1`, otherwise NaN-propagating). -/
noncomputable def jsPow : JSNum → ℕ → JSNum
  | _, 0 => num 1
  | nan, _ + 1 => nan
  | num a, n + 1 => num (a ^ (n + 1))

/-- JS `x > y` (false whenever an operand is NaN). -/
def jsGt : JSNum → JSNum → Prop
  | nan, _ => False
  | _, nan => False
  | num a, num b => b < a

noncomputable instance : (x y : JSNum) → Decidable (jsGt x y)
  | nan, nan => isFalse id
  | nan, num _ => isFalse id
  | num _, nan => isFalse id
  | num a, num b => inferInstanceAs (Decidable (b < a))

/-- Read the real value back out of a `JSNum` (0 on NaN; used only to state
inequalities about values shown separately to be non-NaN). -/
noncomputable def real : JSNum → ℝ
  | nan => 0
  | num a => a

end JSNum

open JSNum

/-- A JS value that may be `null`, `undefined`, or a number — the possible
runtime values of the `distance` prop handed to `useHeartbeat`
(`usePartnerLocation` returns `distance = null` until both positions are known). -/
inductive JSVal where
  | null : JSVal
  | undef : JSVal
  | val : ℝ → JSVal

/-- JS `ToNumber` coercion, as applied by `>` and `/`:
`null ↦ +0`, `undefined ↦ NaN`. -/
def JSVal.toNumber : JSVal → JSNum
  | .null => num 0
  | .undef => nan
  | .val x => num x

/-- The mutable state of `useHeartbeat`: `scaleRef.current` and `timeRef.current`. -/
structure HBState where
  scale : JSNum
  time : JSNum

/-- Initial refs of `useHeartbeat`: `useRef(1)`, `useRef(0)`. -/
def hbInit : HBState := ⟨num 1, num 0⟩

/-- One `useFrame` tick of `useHeartbeat` (src/hooks/useHeartbeat.js, lines
13–34), translated statement by statement.  `distance` is the prop (possibly
null/undefined), `delta` the frame delta supplied by the render loop. -/
noncomputable def heartbeatStep (distance : JSVal) (delta : ℝ) (s : HBState) : HBState :=
  let d := distance.toNumber
  if jsGt d (num 1000) then
    -- Too far — no pulse, gracefully return to 1 (timeRef is not advanced)
    { s with scale := s.scale + (num 1 - s.scale) * num 0.05 }
  else
    let t := num 1 - jsMin (d / num 1000) (num 1)
    let bpm := num 60 + t * num 60
    let frequency := bpm / num 60
    let time := s.time + num delta
    let phase := JSNum.mod (time * frequency * num π * num 2) (num π * num 2)
    let beat1 := jsPow (jsMax (num 0) (jsSin phase)) 4
    let beat2 := jsPow (jsMax (num 0) (jsSin (phase + num 0.6))) 8 * num 0.5
    let intensity := num 0.03 + t * num 0.05
    { scale := num 1 + (beat1 + beat2) * intensity, time := time }

/-! Real-valued forms of the pulse-branch quantities (`0 ≤ distance ≤ 1000`),
read off the same source lines; `heartbeatStep` is proved to compute them. -/

/-- Source: `t = 1 - Math.min(distance / 1000, 1)`. -/
noncomputable def hbT (d : ℝ) : ℝ := 1 - min (d / 1000) 1

/-- Source: `bpm = 60 + t * 60`. -/
noncomputable def hbBpm (d : ℝ) : ℝ := 60 + hbT d * 60

/-- Source: `frequency = bpm / 60`. -/
noncomputable def hbFreq (d : ℝ) : ℝ := hbBpm d / 60

/-- Source: `phase = (time * frequency * PI * 2) % (PI * 2)`. -/
noncomputable def hbPhase (d time : ℝ) : ℝ := jsfmodR (time * hbFreq d * π * 2) (π * 2)

/-- Source: `beat1 = Math.pow(Math.max(0, Math.sin(phase)), 4)`. -/
noncomputable def hbBeat1 (d time : ℝ) : ℝ := (max 0 (Real.sin (hbPhase d time))) ^ 4

/-- Source: `beat2 = Math.pow(Math.max(0, Math.sin(phase + 0.6)), 8) * 0.5`. -/
noncomputable def hbBeat2 (d time : ℝ) : ℝ :=
  (max 0 (Real.sin (hbPhase d time + 0.6))) ^ 8 * 0.5

/-- Source: `intensity = 0.03 + t * 0.05`. -/
noncomputable def hbIntensity (d : ℝ) : ℝ := 0.03 + hbT d * 0.05

/-- Source: `scale = 1 + (beat1 + beat2) * intensity`. -/
noncomputable def hbScale (d time : ℝ) : ℝ :=
  1 + (hbBeat1 d time + hbBeat2 d time) * hbIntensity d

/-! ## Bearing-tracking rotation (src/hooks/useFlowerRotation.js, lines 15–32) -/

/-- Three.js helper: `THREE.MathUtils.lerp(x, y, t) = (1 - t) * x + t * y`. -/
def threeLerp (x y t : ℝ) : ℝ := (1 - t) * x + t * y

/-- Source: `relativeAngle = ((targetBearing - deviceHeading + 360) % 360) * (PI / 180)`. -/
noncomputable def relativeAngle (targetBearing deviceHeading : ℝ) : ℝ :=
  jsfmodR (targetBearing - deviceHeading + 360) 360 * (π / 180)

/-- Source: `dampingFactor = 1 - Math.pow(0.001, delta)`. -/
noncomputable def dampingFactor (delta : ℝ) : ℝ := 1 - (0.001 : ℝ) ^ delta

/-- One `useFrame` tick of `useFlowerRotation`:
`currentRotation = lerp(currentRotation, relativeAngle, dampingFactor * 0.8)`. -/
noncomputable def yawUpdate (targetBearing deviceHeading delta yaw : ℝ) : ℝ :=
  threeLerp yaw (relativeAngle targetBearing deviceHeading) (dampingFactor delta * 0.8)

/-- Iterated update: `n` ticks of `useFlowerRotation` from the initial `useRef(0)` yaw, at a
constant bearing, heading and frame delta. -/
noncomputable def yawIter (targetBearing deviceHeading delta : ℝ) : ℕ → ℝ
  | 0 => 0
  | n + 1 => yawUpdate targetBearing deviceHeading delta
      (yawIter targetBearing deviceHeading delta n)


/-! ## Capability tiers (src/lib/deviceDetect.js and the tier branches of
src/components/Sunflower.jsx)

The source drives every quality knob off the two booleans `isMobile` and
`isLowEnd`, with `isLowEnd` implying `isMobile`; the three reachable
combinations are the spec's tiers LOW, MOBILE, DESKTOP. -/

/-- Capability tier: low ↦ (isMobile, isLowEnd) = (true, true),
mobile ↦ (true, false), desktop ↦ (false, false). -/
inductive Tier where
  | low : Tier
  | mobile : Tier
  | desktop : Tier
deriving DecidableEq

/-- Flag `isMobile` of deviceDetect.js, per tier. -/
def Tier.isMobile : Tier → Bool
  | .desktop => false
  | _ => true

/-- Flag `isLowEnd` of deviceDetect.js, per tier. -/
def Tier.isLowEnd : Tier → Bool
  | .low => true
  | _ => false

/-- Capability order on tiers: low ≤ mobile ≤ desktop. -/
def Tier.capLe : Tier → Tier → Bool
  | .low, _ => true
  | .mobile, .low => false
  | .mobile, _ => true
  | .desktop, .desktop => true
  | .desktop, _ => false

/-- Petal extrusion `curveSegments` (Sunflower.jsx lines 30–39). -/
def petalCurveSegments (t : Tier) : ℕ := if t.isMobile then 4 else 10

/-- Petal extrusion `bevelEnabled` (Sunflower.jsx lines 30–39). -/
def petalBevelEnabled (t : Tier) : Bool := !t.isMobile

/-- Sepal extrusion `curveSegments` (Sunflower.jsx lines 216–218). -/
def sepalCurveSegments (t : Tier) : ℕ := if t.isMobile then 3 else 6

/-- Sepal extrusion `bevelEnabled` (Sunflower.jsx lines 216–218). -/
def sepalBevelEnabled (t : Tier) : Bool := !t.isMobile

/-- Leaf extrusion `curveSegments` (Sunflower.jsx lines 496–503). -/
def leafCurveSegments (t : Tier) : ℕ := if t.isMobile then 3 else 6

/-- Leaf extrusion `bevelEnabled` (Sunflower.jsx line 498). -/
def leafBevelEnabled (t : Tier) : Bool := !t.isMobile

/-- Center-disc cylinder segment count (Sunflower.jsx line 276). -/
def discSegments (t : Tier) : ℕ := if t.isMobile then 24 else 40

/-- Per-ring petal instance counts (Sunflower.jsx lines 651–682):
low-end two rings of 11 and 18, mobile two rings of 13 and 21,
desktop three rings of 13, 21 and 34. -/
def ringInstanceCounts (t : Tier) : List ℕ :=
  if t.isLowEnd then [11, 18] else if t.isMobile then [13, 21] else [13, 21, 34]

/-- Number of petal rings. -/
def ringCount (t : Tier) : ℕ := (ringInstanceCounts t).length

/-- Sepal count (Sunflower.jsx line 685): `isMobile ? (isLowEnd ? 8 : 12) : 18`. -/
def sepalCount (t : Tier) : ℕ := if t.isMobile then (if t.isLowEnd then 8 else 12) else 18

/-- Petal lateral-wave deformation toggle (Sunflower.jsx lines 62–65). -/
def lateralWaveEnabled (t : Tier) : Bool := !t.isMobile

/-- Leaf center-vein toggle (Sunflower.jsx line 568). -/
def centerVeinEnabled (t : Tier) : Bool := !t.isLowEnd

/-- Leaf secondary-veins toggle (Sunflower.jsx line 576). -/
def secondaryVeinsEnabled (t : Tier) : Bool := !t.isMobile

/-- Stem trichome hair count (Sunflower.jsx lines 412–416). -/
def stemHairCount (t : Tier) : ℕ := if t.isMobile then 0 else 60

/-- Emissive floret-ring toggle on the center disc (Sunflower.jsx line 305). -/
def floretRingEnabled (t : Tier) : Bool := !t.isMobile

/-- Leaf count (Sunflower.jsx lines 714–718): two leaves always, a third
unless low-end, a fourth only on desktop. -/
def leafCount (t : Tier) : ℕ :=
  2 + (if t.isLowEnd then 0 else 1) + (if t.isMobile then 0 else 1)

/-! ## Phyllotactic layout (src/components/Sunflower.jsx) -/

/-- Constant `GOLDEN_ANGLE = Math.PI * (3 - Math.sqrt(5))` (Sunflower.jsx line 8). -/
noncomputable def GOLDEN_ANGLE : ℝ := π * (3 - Real.sqrt 5)

/-- Petal placement angle (Sunflower.jsx line 92):
`angle = (index / total) * Math.PI * 2 + goldenOffset`. -/
noncomputable def petalAngle (index total : ℕ) (goldenOffset : ℝ) : ℝ :=
  ((index : ℝ) / (total : ℝ)) * π * 2 + goldenOffset

/-- Per-ring golden offsets of the ring configuration (Sunflower.jsx lines
651–682): ring 0 ↦ 0, ring 1 ↦ `GOLDEN_ANGLE * 0.5`, ring 2 ↦ `GOLDEN_ANGLE`. -/
noncomputable def ringGoldenOffset : ℕ → ℝ
  | 0 => 0
  | 1 => GOLDEN_ANGLE * 0.5
  | _ => GOLDEN_ANGLE

/-- Predicate: two placement angles name the same direction (differ by a
multiple of a full turn). -/
def sameAngle (x y : ℝ) : Prop := ∃ m : ℤ, x - y = 2 * π * m

/-- Per-petal deterministic seed (Sunflower.jsx lines 95–98):
`s = Math.sin(index * 127.1 + ring * 311.7) * 43758.5453; return s - Math.floor(s)`. -/
noncomputable def seedValue (index ring : ℤ) : ℝ :=
  let s := Real.sin ((index : ℝ) * 127.1 + (ring : ℝ) * 311.7) * 43758.5453
  s - ⌊s⌋

/-! ## Tapered stem builder (src/components/Sunflower.jsx, lines 335–409,
desktop branch)

The builder consumes `points = curve.getPoints(tubeSegments)` and
`frames = curve.computeFrenetFrames(tubeSegments, false)` from the external
three.js curve object; both are parameters of the embedding, so that the
builder can be evaluated on degenerate frame data as well as on healthy
frames.  All remaining arithmetic is the source's own. -/

/-- A 3-vector of JS numbers. -/
structure Vec3 where
  x : JSNum
  y : JSNum
  z : JSNum

/-- One parallel-transport frame sample as delivered by
`curve.computeFrenetFrames`: a normal and a binormal vector. -/
structure Frame where
  normal : Vec3
  binormal : Vec3

/-- Source constant `tubeSegments = 28` (Sunflower.jsx line 341). -/
def tubeSegments : ℕ := 28

/-- Source constant `radialSegments = 10` (Sunflower.jsx line 342). -/
def radialSegments : ℕ := 10

/-- Cross-section direction at sample `i`, angle index `j` (Sunflower.jsx
lines 361–372): `nx = cos * N.x + sin * B.x` and likewise for y, z. -/
noncomputable def stemNormalVec (R : ℕ) (frames : ℕ → Frame) (i j : ℕ) : Vec3 :=
  let theta : ℝ := ((j : ℝ) / (R : ℝ)) * π * 2
  let nv := (frames i).normal
  let bv := (frames i).binormal
  ⟨num (Real.cos theta) * nv.x + num (Real.sin theta) * bv.x,
   num (Real.cos theta) * nv.y + num (Real.sin theta) * bv.y,
   num (Real.cos theta) * nv.z + num (Real.sin theta) * bv.z⟩

/-- Vertex position at sample `i`, angle index `j` (Sunflower.jsx lines
352–374): tapered radius `0.058 - t * 0.022`, irregularity
`1 + Math.sin(theta * 3 + t * 5) * 0.03`, vertex `P + r * n`. -/
noncomputable def stemVertex (N R : ℕ) (points : ℕ → Vec3) (frames : ℕ → Frame)
    (i j : ℕ) : Vec3 :=
  let t : ℝ := (i : ℝ) / (N : ℝ)
  let radius : ℝ := 0.058 - t * 0.022
  let theta : ℝ := ((j : ℝ) / (R : ℝ)) * π * 2
  let irregularity : ℝ := 1 + Real.sin (theta * 3 + t * 5) * 0.03
  let r : ℝ := radius * irregularity
  let p := points i
  let n := stemNormalVec R frames i j
  ⟨p.x + num r * n.x, p.y + num r * n.y, p.z + num r * n.z⟩

/-- Vertex color at sample `i` (Sunflower.jsx lines 378–382): linear
interpolation from `#1E4A10` toward `#3A6B25` by `t`, per three.js
`Color.lerp` (`c += (tip - c) * t` componentwise). -/
noncomputable def stemColorAt (N i : ℕ) : ℝ × ℝ × ℝ :=
  let t : ℝ := (i : ℝ) / (N : ℝ)
  (30 / 255 + (58 / 255 - 30 / 255) * t,
   74 / 255 + (107 / 255 - 74 / 255) * t,
   16 / 255 + (37 / 255 - 16 / 255) * t)

/-- Flat position buffer: three scalars pushed per `(i, j)` vertex
(Sunflower.jsx line 374). -/
noncomputable def stemPositions (N R : ℕ) (points : ℕ → Vec3) (frames : ℕ → Frame) :
    List JSNum :=
  (List.range (N + 1)).flatMap fun i => (List.range (R + 1)).flatMap fun j =>
    let v := stemVertex N R points frames i j
    [v.x, v.y, v.z]

/-- Flat normal buffer: three scalars pushed per `(i, j)` vertex
(Sunflower.jsx line 375). -/
noncomputable def stemNormals (N R : ℕ) (frames : ℕ → Frame) : List JSNum :=
  (List.range (N + 1)).flatMap fun i => (List.range (R + 1)).flatMap fun j =>
    let n := stemNormalVec R frames i j
    [n.x, n.y, n.z]

/-- Flat UV buffer: two scalars `j / radialSegments, t` pushed per `(i, j)`
vertex (Sunflower.jsx line 376). -/
noncomputable def stemUvs (N R : ℕ) : List JSNum :=
  (List.range (N + 1)).flatMap fun i => (List.range (R + 1)).flatMap fun j =>
    [num ((j : ℝ) / (R : ℝ)), num ((i : ℝ) / (N : ℝ))]

/-- Flat color buffer: three scalars pushed per `(i, j)` vertex
(Sunflower.jsx line 382). -/
noncomputable def stemColors (N R : ℕ) : List JSNum :=
  (List.range (N + 1)).flatMap fun i => (List.range (R + 1)).flatMap fun _ =>
    let c := stemColorAt N i
    [num c.1, num c.2.1, num c.2.2]

/-- Triangle index buffer (Sunflower.jsx lines 386–395): per quad `(i, j)`
with `i < tubeSegments`, `j < radialSegments`, the two triangles
`a b c` and `b d c`. -/
def stemIndices (N R : ℕ) : List ℕ :=
  (List.range N).flatMap fun i => (List.range R).flatMap fun j =>
    let a := i * (R + 1) + j
    let b := a + 1
    let c := (i + 1) * (R + 1) + j
    let d := c + 1
    [a, b, c, b, d, c]

/-- The buffers and provenance of the stem geometry. -/
structure StemGeometry where
  positions : List JSNum
  normals : List JSNum
  uvs : List JSNum
  colors : List JSNum
  indices : List ℕ
  usedFallback : Bool

/-- Desktop stem builder (Sunflower.jsx lines 340–408).  The source wraps the
tapered build in `try { ... } catch { return TubeGeometry fallback }`; the body
after `getPoints`/`computeFrenetFrames` is plain floating-point arithmetic and
array pushes, which never throw in JavaScript (NaN operands flow through), so
once the external curve methods return values — degenerate or not — the
builder returns the tapered buffers and the catch branch (the fallback tube)
is not reached.  `usedFallback` records which branch produced the result. -/
noncomputable def buildTaperedStem (N R : ℕ) (points : ℕ → Vec3) (frames : ℕ → Frame) :
    StemGeometry :=
  { positions := stemPositions N R points frames
    normals := stemNormals N R frames
    uvs := stemUvs N R
    colors := stemColors N R
    indices := stemIndices N R
    usedFallback := false }

/-- A degenerate spline's samples: all control points coincident, so every
sampled point is the same point. -/
noncomputable def coincidentPoints : ℕ → Vec3 := fun _ => ⟨num 0, num 0, num 0⟩

/-- Degenerate frame data: the spec's own failure mode, frame computation
yielding NaN frames. -/
def nanFrames : ℕ → Frame := fun _ =>
  ⟨⟨JSNum.nan, JSNum.nan, JSNum.nan⟩, ⟨JSNum.nan, JSNum.nan, JSNum.nan⟩⟩

/-! ## Theorems

Computation lemmas for the JS-number model, then the claim theorems with
their witnesses and counterexamples. -/

@[simp] theorem JSNum.num_add_num (a b : ℝ) : num a + num b = num (a + b) := rfl
@[simp] theorem JSNum.num_sub_num (a b : ℝ) : num a - num b = num (a - b) := rfl
@[simp] theorem JSNum.num_mul_num (a b : ℝ) : num a * num b = num (a * b) := rfl
@[simp] theorem JSNum.num_div_num (a b : ℝ) : num a / num b = num (a / b) := rfl
@[simp] theorem JSNum.jsMin_num_num (a b : ℝ) : jsMin (num a) (num b) = num (min a b) := rfl
@[simp] theorem JSNum.jsMax_num_num (a b : ℝ) : jsMax (num a) (num b) = num (max a b) := rfl
@[simp] theorem JSNum.jsSin_num (a : ℝ) : jsSin (num a) = num (Real.sin a) := rfl
@[simp] theorem JSNum.real_num (a : ℝ) : real (num a) = a := rfl

@[simp] theorem JSNum.jsPow_num (a : ℝ) (n : ℕ) : jsPow (num a) n = num (a ^ n) := by
  cases n with
  | zero => simp [jsPow]
  | succ k => rfl

@[simp] theorem JSNum.mod_num_num (a b : ℝ) (hb : b ≠ 0) :
    mod (num a) (num b) = num (jsfmodR a b) := by
  simp [mod, hb]

@[simp] theorem JSNum.nan_add (x : JSNum) : nan + x = nan := by cases x <;> rfl
@[simp] theorem JSNum.add_nan (x : JSNum) : x + nan = nan := by cases x <;> rfl
@[simp] theorem JSNum.nan_sub (x : JSNum) : nan - x = nan := by cases x <;> rfl
@[simp] theorem JSNum.sub_nan (x : JSNum) : x - nan = nan := by cases x <;> rfl
@[simp] theorem JSNum.nan_mul (x : JSNum) : nan * x = nan := by cases x <;> rfl
@[simp] theorem JSNum.mul_nan (x : JSNum) : x * nan = nan := by cases x <;> rfl
@[simp] theorem JSNum.nan_div (x : JSNum) : nan / x = nan := by cases x <;> rfl
@[simp] theorem JSNum.div_nan (x : JSNum) : x / nan = nan := by cases x <;> rfl
@[simp] theorem JSNum.jsMin_nan (x : JSNum) : jsMin nan x = nan := by cases x <;> rfl
@[simp] theorem JSNum.jsMin_nan_right (x : JSNum) : jsMin x nan = nan := by cases x <;> rfl
@[simp] theorem JSNum.jsMax_nan (x : JSNum) : jsMax nan x = nan := by cases x <;> rfl
@[simp] theorem JSNum.jsMax_nan_right (x : JSNum) : jsMax x nan = nan := by cases x <;> rfl
@[simp] theorem JSNum.jsSin_nan : jsSin nan = nan := rfl
@[simp] theorem JSNum.jsPow_nan (n : ℕ) : jsPow nan (n + 1) = nan := rfl
@[simp] theorem JSNum.mod_nan_left (x : JSNum) : mod nan x = nan := by cases x <;> rfl
@[simp] theorem JSNum.mod_nan_right (x : JSNum) : mod x nan = nan := by cases x <;> rfl
@[simp] theorem JSNum.jsGt_nan_left (x : JSNum) : ¬ jsGt nan x := by cases x <;> exact id
@[simp] theorem JSNum.jsGt_num_num (a b : ℝ) : jsGt (num a) (num b) ↔ b < a := Iff.rfl

/-! ### Evaluation lemmas for the heartbeat step -/

/-- With a known distance beyond 1000 m the step only relaxes the scale and
leaves the accumulated time untouched. -/
theorem heartbeatStep_far (d delta : ℝ) (s : HBState) (hd : 1000 < d) :
    heartbeatStep (.val d) delta s =
      { s with scale := s.scale + (num 1 - s.scale) * num 0.05 } := by
  simp only [heartbeatStep, JSVal.toNumber, jsGt_num_num]
  rw [if_pos hd]

/-- With a known distance at most 1000 m the step computes the double-bump
waveform: the new state is exactly `(hbScale d (T + delta), T + delta)`. -/
theorem heartbeatStep_pulse (d delta T s : ℝ) (hd : d ≤ 1000) :
    heartbeatStep (.val d) delta ⟨num s, num T⟩ =
      ⟨num (hbScale d (T + delta)), num (T + delta)⟩ := by
  simp only [heartbeatStep, JSVal.toNumber, jsGt_num_num]
  rw [if_neg (not_lt.mpr hd)]
  simp only [num_div_num, jsMin_num_num, num_sub_num, num_mul_num, num_add_num,
    mod_num_num _ _ (by positivity : π * 2 ≠ 0), jsSin_num, jsMax_num_num, jsPow_num]
  refine congrArg₂ HBState.mk ?_ rfl
  unfold hbScale hbBeat1 hbBeat2 hbIntensity hbPhase hbFreq hbBpm hbT
  norm_num

/-- A null distance is coerced to `+0` by both `>` and `/`, hence behaves
exactly like distance 0 m. -/
theorem heartbeatStep_null (delta : ℝ) (s : HBState) :
    heartbeatStep .null delta s = heartbeatStep (.val 0) delta s := rfl

/-- Remainder evaluation: for `0 ≤ a < b` the JS remainder is `a` itself. -/
theorem jsfmodR_of_nonneg_lt (a b : ℝ) (hb : 0 < b) (h0 : 0 ≤ a) (hab : a < b) :
    jsfmodR a b = a := by
  unfold jsfmodR jstrunc
  rw [if_pos (by positivity)]
  have hf : ⌊a / b⌋ = 0 := Int.floor_eq_zero_iff.mpr ⟨by positivity, by rwa [div_lt_one hb]⟩
  simp [hf]

/-- Remainder bounds: for `0 ≤ a` and `0 < b` the JS remainder lies in `[0, b)`. -/
theorem jsfmodR_nonneg_bounds (a b : ℝ) (hb : 0 < b) (h0 : 0 ≤ a) :
    0 ≤ jsfmodR a b ∧ jsfmodR a b < b := by
  unfold jsfmodR jstrunc
  rw [if_pos (by positivity)]
  have key : a - b * (⌊a / b⌋ : ℝ) = b * Int.fract (a / b) := by
    unfold Int.fract
    field_simp
  rw [key]
  have hf0 := Int.fract_nonneg (a / b)
  have hf1 := Int.fract_lt_one (a / b)
  constructor
  · positivity
  · nlinarith

/-- Waveform value at phase `π/2`: `beat1 = 1` and `0 ≤ beat2`, so that
`hbScale d time = 1 + (1 + beat2) * hbIntensity d` is at least
`1 + hbIntensity d` whenever the phase works out to `π/2`. -/
theorem hbScale_ge_of_phase_pi_div_two (d time : ℝ) (hph : hbPhase d time = π / 2)
    (hI : 0 ≤ hbIntensity d) : 1 + hbIntensity d ≤ hbScale d time := by
  unfold hbScale hbBeat1 hbBeat2
  rw [hph, Real.sin_pi_div_two]
  have hb2 : 0 ≤ max 0 (Real.sin (π / 2 + 0.6)) ^ 8 * 0.5 := by positivity
  rw [show max (0:ℝ) 1 = 1 from max_eq_right (by norm_num), one_pow]
  nlinarith [mul_nonneg hb2 hI]

/-- Phase evaluation at the 1000 m threshold: frequency is 1 beat per second,
so at accumulated time 1/4 s the phase is `π/2`. -/
theorem hbPhase_1000_quarter : hbPhase 1000 (1/4) = π / 2 := by
  unfold hbPhase hbFreq hbBpm hbT
  rw [show ((1:ℝ)/4) * ((60 + (1 - min ((1000:ℝ) / 1000) 1) * 60) / 60) * π * 2 = π / 2 by
    rw [show min ((1000:ℝ) / 1000) 1 = 1 by norm_num]
    ring]
  exact jsfmodR_of_nonneg_lt _ _ (by positivity) (by positivity) (by nlinarith [pi_pos])

/-- Phase evaluation at distance 0: frequency is 2 beats per second, so at
accumulated time 1/8 s the phase is `π/2`. -/
theorem hbPhase_0_eighth : hbPhase 0 (1/8) = π / 2 := by
  unfold hbPhase hbFreq hbBpm hbT
  rw [show ((1:ℝ)/8) * ((60 + (1 - min ((0:ℝ) / 1000) 1) * 60) / 60) * π * 2 = π / 2 by
    rw [show min ((0:ℝ) / 1000) 1 = 0 by norm_num]
    ring]
  exact jsfmodR_of_nonneg_lt _ _ (by positivity) (by positivity) (by nlinarith [pi_pos])

/-- Waveform bounds: `beat1 ∈ [0,1]`, `beat2 ∈ [0,0.5]`, so with intensity
`hbIntensity d ∈ [0, I]` the scale lies in `[1, 1 + 1.5 * I]`. -/
theorem hbScale_bounds (d time : ℝ) (hI : 0 ≤ hbIntensity d) :
    1 ≤ hbScale d time ∧ hbScale d time ≤ 1 + 1.5 * hbIntensity d := by
  have h10 : (0:ℝ) ≤ max 0 (Real.sin (hbPhase d time)) := le_max_left 0 _
  have h11 : max 0 (Real.sin (hbPhase d time)) ≤ 1 :=
    max_le (by norm_num) (Real.sin_le_one _)
  have h20 : (0:ℝ) ≤ max 0 (Real.sin (hbPhase d time + 0.6)) := le_max_left 0 _
  have h21 : max 0 (Real.sin (hbPhase d time + 0.6)) ≤ 1 :=
    max_le (by norm_num) (Real.sin_le_one _)
  have hb1 : 0 ≤ hbBeat1 d time ∧ hbBeat1 d time ≤ 1 := by
    unfold hbBeat1
    exact ⟨by positivity, pow_le_one₀ h10 h11⟩
  have hb2 : 0 ≤ hbBeat2 d time ∧ hbBeat2 d time ≤ 0.5 := by
    unfold hbBeat2
    constructor
    · positivity
    · nlinarith [pow_le_one₀ (n := 8) h20 h21]
  unfold hbScale
  constructor
  · nlinarith [mul_nonneg (add_nonneg hb1.1 hb2.1) hI]
  · nlinarith [hb1.1, hb1.2, hb2.1, hb2.2, mul_le_mul_of_nonneg_right
      (add_le_add hb1.2 hb2.2) hI]

/-- C1 (code bug): with an absent distance the heartbeat does **not** degrade
to the neutral scale 1.  With `distance = undefined` the pulse branch is taken
(`NaN > 1000` is false) and the scale becomes NaN after one frame; with
`distance = null` (what `usePartnerLocation` returns before a GPS fix) the
coercion `null ↦ 0` makes the flower pulse at the maximal intensity
(scale ≥ 1.08 at the first beat peak) instead of relaxing toward 1. -/
theorem useHeartbeat_unknownDistance_violation :
    (heartbeatStep .undef (1/60) hbInit).scale = JSNum.nan ∧
    1.08 ≤ ((heartbeatStep .null (1/8) hbInit).scale).real := by
  constructor
  · have : ¬ jsGt (JSVal.toNumber .undef) (num 1000) := by
      simp [JSVal.toNumber]
    simp only [heartbeatStep, if_neg this]
    simp [JSVal.toNumber, hbInit]
  · rw [show hbInit = ⟨num 1, num 0⟩ from rfl, heartbeatStep_null,
      heartbeatStep_pulse 0 (1/8) 0 1 (by norm_num)]
    have hI : hbIntensity 0 = 0.08 := by norm_num [hbIntensity, hbT]
    have := hbScale_ge_of_phase_pi_div_two 0 (0 + 1/8)
      (by rw [show (0:ℝ) + 1/8 = 1/8 by norm_num]; exact hbPhase_0_eighth)
      (by rw [hI]; norm_num)
    rw [real_num]
    rw [hI] at this
    linarith

/-- C2 (counterexample): the scale is **not** continuous across the 1000 m
threshold.  Concretely: after a frame at 1001 m from state
`(scale 1, time 59/240)` the state is unchanged (change 0), yet the very next
frame at 1000 m jumps the scale from 1 to at least 1.03 — and the jump does
not shrink with the frame delta: with delta 1/2400 (ten times smaller) and the
matching accumulated time the jump is again at least 0.03, because the frozen
`timeRef` re-enters the waveform mid-beat. -/
theorem heartbeat_threshold_jump :
    (heartbeatStep (.val 1001) (1/240) ⟨num 1, num (59/240)⟩).scale = num 1 ∧
    (heartbeatStep (.val 1001) (1/240) ⟨num 1, num (59/240)⟩).time = num (59/240) ∧
    1.03 ≤ ((heartbeatStep (.val 1000) (1/240) ⟨num 1, num (59/240)⟩).scale).real ∧
    1.03 ≤ ((heartbeatStep (.val 1000) (1/2400) ⟨num 1, num (599/2400)⟩).scale).real := by
  have hfar := heartbeatStep_far 1001 (1/240) ⟨num 1, num (59/240)⟩ (by norm_num)
  have hI : hbIntensity 1000 = 0.03 := by norm_num [hbIntensity, hbT]
  refine ⟨?_, ?_, ?_, ?_⟩
  · rw [hfar]
    show num 1 + (num 1 - num 1) * num 0.05 = num 1
    simp
  · rw [hfar]
  · rw [heartbeatStep_pulse 1000 (1/240) (59/240) 1 le_rfl]
    have := hbScale_ge_of_phase_pi_div_two 1000 (59/240 + 1/240)
      (by rw [show (59:ℝ)/240 + 1/240 = 1/4 by norm_num]; exact hbPhase_1000_quarter)
      (by rw [hI]; norm_num)
    rw [real_num]
    rw [hI] at this
    linarith
  · rw [heartbeatStep_pulse 1000 (1/2400) (599/2400) 1 le_rfl]
    have := hbScale_ge_of_phase_pi_div_two 1000 (599/2400 + 1/2400)
      (by rw [show (599:ℝ)/2400 + 1/2400 = 1/4 by norm_num]; exact hbPhase_1000_quarter)
      (by rw [hI]; norm_num)
    rw [real_num]
    rw [hI] at this
    linarith

/-- C2 (amended): the crossing jump is bounded, though not vanishing: a frame
beyond 1000 m moves the scale by exactly 5% of its distance to 1 (so a
relaxed state stays at 1), and the first frame back at the 1000 m threshold
lands in `[1, 1 + 1.5 * 0.03] = [1, 1.045]` — the waveform amplitude at
threshold intensity bounds the discontinuity. -/
theorem heartbeat_threshold_jump_bounded (s T delta d : ℝ) (hfar : 1000 < d) :
    (heartbeatStep (.val d) delta ⟨num s, num T⟩).scale = num (s + (1 - s) * 0.05) ∧
    1 ≤ ((heartbeatStep (.val 1000) delta ⟨num 1, num T⟩).scale).real ∧
    ((heartbeatStep (.val 1000) delta ⟨num 1, num T⟩).scale).real ≤ 1.045 := by
  have hI : hbIntensity 1000 = 0.03 := by norm_num [hbIntensity, hbT]
  have hb := hbScale_bounds 1000 (T + delta) (by rw [hI]; norm_num)
  refine ⟨?_, ?_, ?_⟩
  · rw [heartbeatStep_far d delta _ hfar]
    show num s + (num 1 - num s) * num 0.05 = num (s + (1 - s) * 0.05)
    simp
  · rw [heartbeatStep_pulse 1000 delta T 1 le_rfl, real_num]
    exact hb.1
  · rw [heartbeatStep_pulse 1000 delta T 1 le_rfl, real_num]
    rw [hI] at hb
    linarith [hb.2]

/-- Witness for the amended C2 theorem at `s = 1`, `T = 0`, `delta = 1/240`,
`d = 1001`. -/
theorem heartbeat_threshold_jump_bounded_witness :
    (heartbeatStep (.val 1001) (1/240) ⟨num 1, num 0⟩).scale = num (1 + (1 - 1) * 0.05) ∧
    1 ≤ ((heartbeatStep (.val 1000) (1/240) ⟨num 1, num 0⟩).scale).real ∧
    ((heartbeatStep (.val 1000) (1/240) ⟨num 1, num 0⟩).scale).real ≤ 1.045 :=
  heartbeat_threshold_jump_bounded 1 0 (1/240) 1001 (by norm_num)

/-- C5 (confirmed): for a known distance `0 ≤ d ≤ 1000` one frame computes
`t = 1 - min (d/1000) 1`, `bpm = 60 + t * 60` (so 120 at 0 m and 60 at
1000 m), advances the accumulated time by the frame delta, and sets the scale
to `1 + (beat1 + beat2) * intensity` with the double-bump waveform and
`intensity = 0.03 + t * 0.05`, a strictly increasing function of `t` that is
maximal (0.08) at 0 m and minimal (0.03) at 1000 m. -/
theorem useHeartbeat_pulse_formula (d delta T s : ℝ) (h0 : 0 ≤ d) (h1 : d ≤ 1000) :
    heartbeatStep (.val d) delta ⟨num s, num T⟩ =
      ⟨num (hbScale d (T + delta)), num (T + delta)⟩ ∧
    hbBpm 0 = 120 ∧ hbBpm 1000 = 60 ∧
    StrictMono (fun t : ℝ => 0.03 + t * 0.05) ∧
    hbIntensity d = 0.03 + hbT d * 0.05 ∧
    hbIntensity 0 = 0.08 ∧ hbIntensity 1000 = 0.03 := by
  refine ⟨heartbeatStep_pulse d delta T s h1, by norm_num [hbBpm, hbT],
    by norm_num [hbBpm, hbT], ?_, rfl, by norm_num [hbIntensity, hbT],
    by norm_num [hbIntensity, hbT]⟩
  intro a b hab
  simp only
  nlinarith

/-- Witness for C5 at `d = 0`, `delta = 1`, `T = 0`, `s = 1`. -/
theorem useHeartbeat_pulse_formula_witness :
    heartbeatStep (.val 0) 1 ⟨num 1, num 0⟩ =
      ⟨num (hbScale 0 (0 + 1)), num (0 + 1)⟩ :=
  (useHeartbeat_pulse_formula 0 1 0 1 le_rfl (by norm_num)).1

/-- C9 (confirmed): the per-petal seed is a pure function of its two integer
inputs — in this embedding it is a mathematical function, so identical inputs
give identical values, across calls and restarts alike — and its value always
lies in the half-open interval `[0, 1)`. -/
theorem seedValue_deterministic_in_unit_interval :
    ∀ index ring : ℤ, (0 ≤ seedValue index ring ∧ seedValue index ring < 1) ∧
      seedValue index ring = seedValue index ring := by
  intro index ring
  refine ⟨⟨?_, ?_⟩, rfl⟩
  · unfold seedValue
    exact Int.fract_nonneg _
  · unfold seedValue
    exact Int.fract_lt_one _

/-- C6 (counterexample): the tier parameters do **not** strictly increase
between every pair of consecutive tiers: the petal extrusion segment count is
4 on both LOW and MOBILE, and the innermost ring holds 13 instances on both
MOBILE and DESKTOP (likewise 21 in ring 1). -/
theorem tier_not_strictly_increasing :
    petalCurveSegments Tier.low = petalCurveSegments Tier.mobile ∧
    (ringInstanceCounts Tier.mobile).getD 0 0 = (ringInstanceCounts Tier.desktop).getD 0 0 ∧
    (ringInstanceCounts Tier.mobile).getD 1 0 = (ringInstanceCounts Tier.desktop).getD 1 0 := by
  decide

/-- C6 (amended): the tier mapping is monotone — along the capability order
LOW ≤ MOBILE ≤ DESKTOP no resource parameter ever decreases (curve segments,
bevel flags, ring count, per-ring instance counts, sepal count, disc segments,
hair count, leaf count, and the secondary-detail toggles), and each step up
strictly increases some parameters (LOW→MOBILE: instance counts, sepal count,
center vein, leaf count; MOBILE→DESKTOP: segments, bevels, ring count, sepal
count, hairs, toggles, leaf count) — but not every parameter at every step. -/
theorem tier_resources_monotone (t1 t2 : Tier) (h : t1.capLe t2 = true) :
    (petalCurveSegments t1 ≤ petalCurveSegments t2 ∧
     sepalCurveSegments t1 ≤ sepalCurveSegments t2 ∧
     leafCurveSegments t1 ≤ leafCurveSegments t2 ∧
     discSegments t1 ≤ discSegments t2 ∧
     ringCount t1 ≤ ringCount t2 ∧
     sepalCount t1 ≤ sepalCount t2 ∧
     stemHairCount t1 ≤ stemHairCount t2 ∧
     leafCount t1 ≤ leafCount t2) ∧
    (∀ k, k < ringCount t1 →
      (ringInstanceCounts t1).getD k 0 ≤ (ringInstanceCounts t2).getD k 0) ∧
    ((petalBevelEnabled t1 = true → petalBevelEnabled t2 = true) ∧
     (sepalBevelEnabled t1 = true → sepalBevelEnabled t2 = true) ∧
     (leafBevelEnabled t1 = true → leafBevelEnabled t2 = true) ∧
     (lateralWaveEnabled t1 = true → lateralWaveEnabled t2 = true) ∧
     (centerVeinEnabled t1 = true → centerVeinEnabled t2 = true) ∧
     (secondaryVeinsEnabled t1 = true → secondaryVeinsEnabled t2 = true) ∧
     (floretRingEnabled t1 = true → floretRingEnabled t2 = true)) ∧
    (sepalCount Tier.low < sepalCount Tier.mobile ∧
     sepalCount Tier.mobile < sepalCount Tier.desktop ∧
     (ringInstanceCounts Tier.low).getD 0 0 < (ringInstanceCounts Tier.mobile).getD 0 0 ∧
     leafCount Tier.low < leafCount Tier.mobile ∧
     leafCount Tier.mobile < leafCount Tier.desktop ∧
     petalCurveSegments Tier.mobile < petalCurveSegments Tier.desktop ∧
     ringCount Tier.mobile < ringCount Tier.desktop ∧
     stemHairCount Tier.mobile < stemHairCount Tier.desktop) := by
  revert h
  cases t1 <;> cases t2 <;> decide

/-- Witness for the amended C6 theorem at the pair (LOW, DESKTOP). -/
theorem tier_resources_monotone_witness :
    Tier.low.capLe Tier.desktop = true ∧
    petalCurveSegments Tier.low ≤ petalCurveSegments Tier.desktop :=
  ⟨by decide, ((tier_resources_monotone Tier.low Tier.desktop (by decide)).1).1⟩

/-- C7 (confirmed): instance `i` of a ring with count `c` sits at
`(i / c) * 2π` plus the ring's offset; the offsets are 0, `GOLDEN_ANGLE / 2`,
`GOLDEN_ANGLE` for rings 0, 1, 2 and are strictly increasing; angles within a
ring are evenly spaced by `2π / c`; and for any two consecutive rings with a
common count the angle sets are disjoint mod 2π — the offset difference is
`GOLDEN_ANGLE / 2 = π(3 − √5)/2`, an irrational multiple of π, so no two
instances of consecutive rings can coincide on the circle. -/
theorem petal_ring_layout (c i j r : ℕ) (hc : 0 < c) (hi : i < c) (hj : j < c)
    (hr : r < 2) :
    (ringGoldenOffset 0 = 0 ∧ ringGoldenOffset 1 = GOLDEN_ANGLE / 2 ∧
     ringGoldenOffset 2 = GOLDEN_ANGLE ∧
     ringGoldenOffset 0 < ringGoldenOffset 1 ∧
     ringGoldenOffset 1 < ringGoldenOffset 2) ∧
    (∀ k : ℕ, petalAngle (k + 1) c (ringGoldenOffset r) -
      petalAngle k c (ringGoldenOffset r) = π * 2 / c) ∧
    ¬ sameAngle (petalAngle i c (ringGoldenOffset r))
        (petalAngle j c (ringGoldenOffset (r + 1))) := by
  have h5irr : Irrational (Real.sqrt 5) := (by norm_num : Nat.Prime 5).irrational_sqrt
  have h5lt : Real.sqrt 5 < 3 := by
    rw [show (3:ℝ) = Real.sqrt 9 by
      rw [show (9:ℝ) = 3 ^ 2 by norm_num, Real.sqrt_sq (by norm_num : (0:ℝ) ≤ 3)]]
    exact Real.sqrt_lt_sqrt (by norm_num) (by norm_num)
  have hGA : 0 < GOLDEN_ANGLE := by
    unfold GOLDEN_ANGLE
    nlinarith [pi_pos]
  have hcR : (c:ℝ) ≠ 0 := Nat.cast_ne_zero.mpr hc.ne'
  refine ⟨⟨rfl, by unfold ringGoldenOffset; ring, rfl, ?_, ?_⟩, ?_, ?_⟩
  · show (0:ℝ) < GOLDEN_ANGLE * 0.5
    nlinarith
  · show GOLDEN_ANGLE * 0.5 < GOLDEN_ANGLE
    nlinarith
  · intro k
    unfold petalAngle
    push_cast
    field_simp
    ring
  · rintro ⟨m, hm⟩
    interval_cases r
    · unfold petalAngle ringGoldenOffset GOLDEN_ANGLE at hm
      have h2 : π * (((i:ℝ)/c) * 2 - ((j:ℝ)/c) * 2 - (3 - Real.sqrt 5) * 0.5
          - 2 * (m:ℝ)) = 0 := by linear_combination hm
      have h3 : ((i:ℝ)/c) * 2 - ((j:ℝ)/c) * 2 - (3 - Real.sqrt 5) * 0.5
          - 2 * (m:ℝ) = 0 := by
        rcases mul_eq_zero.mp h2 with h | h
        · exact absurd h Real.pi_ne_zero
        · exact h
      exact h5irr ⟨(3:ℚ) - 4 * ((i:ℚ)/(c:ℚ)) + 4 * ((j:ℚ)/(c:ℚ)) + 4 * (m:ℚ), by
        push_cast
        linarith⟩
    · unfold petalAngle ringGoldenOffset GOLDEN_ANGLE at hm
      have h2 : π * (((i:ℝ)/c) * 2 - ((j:ℝ)/c) * 2 - (3 - Real.sqrt 5) * 0.5
          - 2 * (m:ℝ)) = 0 := by linear_combination hm
      have h3 : ((i:ℝ)/c) * 2 - ((j:ℝ)/c) * 2 - (3 - Real.sqrt 5) * 0.5
          - 2 * (m:ℝ) = 0 := by
        rcases mul_eq_zero.mp h2 with h | h
        · exact absurd h Real.pi_ne_zero
        · exact h
      exact h5irr ⟨(3:ℚ) - 4 * ((i:ℚ)/(c:ℚ)) + 4 * ((j:ℚ)/(c:ℚ)) + 4 * (m:ℚ), by
        push_cast
        linarith⟩

/-- Witness for C7 at ring 0 versus ring 1 with count 13, instances 0 and 1. -/
theorem petal_ring_layout_witness :
    ¬ sameAngle (petalAngle 0 13 (ringGoldenOffset 0))
        (petalAngle 1 13 (ringGoldenOffset 1)) :=
  (petal_ring_layout 13 0 1 0 (by norm_num) (by norm_num) (by norm_num)
    (by norm_num)).2.2

/-- Length of a flatMap whose inner lists all have the same length. -/
theorem length_flatMap_const {α β : Type} (l : List α) (f : α → List β) (c : ℕ)
    (h : ∀ a ∈ l, (f a).length = c) : (l.flatMap f).length = l.length * c := by
  induction l with
  | nil => simp
  | cons a l ih =>
      rw [List.flatMap_cons, List.length_append, h a (List.mem_cons_self a l),
        ih (fun x hx => h x (List.mem_cons_of_mem a hx)), List.length_cons]
      ring

/-- Position-buffer length: three scalars per vertex of the
`(N+1) × (R+1)` grid. -/
theorem stemPositions_length (N R : ℕ) (p : ℕ → Vec3) (f : ℕ → Frame) :
    (stemPositions N R p f).length = (N + 1) * ((R + 1) * 3) := by
  unfold stemPositions
  refine Eq.trans (length_flatMap_const _ _ ((R + 1) * 3) fun i _ => ?_) (by
    rw [List.length_range])
  exact Eq.trans (length_flatMap_const _ _ 3 fun j _ => rfl) (by rw [List.length_range])

/-- Normal-buffer length: three scalars per vertex. -/
theorem stemNormals_length (N R : ℕ) (f : ℕ → Frame) :
    (stemNormals N R f).length = (N + 1) * ((R + 1) * 3) := by
  unfold stemNormals
  refine Eq.trans (length_flatMap_const _ _ ((R + 1) * 3) fun i _ => ?_) (by
    rw [List.length_range])
  exact Eq.trans (length_flatMap_const _ _ 3 fun j _ => rfl) (by rw [List.length_range])

/-- UV-buffer length: two scalars per vertex. -/
theorem stemUvs_length (N R : ℕ) :
    (stemUvs N R).length = (N + 1) * ((R + 1) * 2) := by
  unfold stemUvs
  refine Eq.trans (length_flatMap_const _ _ ((R + 1) * 2) fun i _ => ?_) (by
    rw [List.length_range])
  exact Eq.trans (length_flatMap_const _ _ 2 fun j _ => rfl) (by rw [List.length_range])

/-- Every triangle index addresses a vertex of the `(N+1) × (R+1)` grid. -/
theorem stemIndices_bound (N R idx : ℕ) (h : idx ∈ stemIndices N R) :
    idx < (N + 1) * (R + 1) := by
  unfold stemIndices at h
  simp only [List.mem_flatMap, List.mem_range, List.mem_cons, List.not_mem_nil,
    or_false] at h
  obtain ⟨i, hi, j, hj, hmem⟩ := h
  rcases hmem with h | h | h | h | h | h <;> subst h <;> nlinarith [hi, hj]

/-- C8 (amended, confirmed parts): for every tube/radial segment count and
every points/frames input, the tapered stem's normal buffer is as long as its
position buffer, the UV buffer holds exactly two scalars per vertex — that is,
`len(uvs) = 2 * (len(positions) / 3)` — and every triangle index is below the
vertex count `len(positions) / 3 = (N+1)(R+1)`. -/
theorem stem_mesh_buffer_consistency (N R idx : ℕ) (p : ℕ → Vec3) (f : ℕ → Frame)
    (h : idx ∈ (buildTaperedStem N R p f).indices) :
    (buildTaperedStem N R p f).normals.length =
      (buildTaperedStem N R p f).positions.length ∧
    (buildTaperedStem N R p f).uvs.length =
      2 * ((buildTaperedStem N R p f).positions.length / 3) ∧
    idx < (buildTaperedStem N R p f).positions.length / 3 := by
  have hdiv : (stemPositions N R p f).length / 3 = (N + 1) * (R + 1) := by
    rw [stemPositions_length, show (N + 1) * ((R + 1) * 3) = (N + 1) * (R + 1) * 3 by ring,
      Nat.mul_div_cancel _ (by norm_num)]
  refine ⟨?_, ?_, ?_⟩
  · show (stemNormals N R f).length = (stemPositions N R p f).length
    rw [stemNormals_length, stemPositions_length]
  · show (stemUvs N R).length = 2 * ((stemPositions N R p f).length / 3)
    rw [stemUvs_length, hdiv]
    ring
  · show idx < (stemPositions N R p f).length / 3
    rw [hdiv]
    exact stemIndices_bound N R idx h

/-- Witness for C8 at the source's configuration (28 tube segments, 10 radial
segments) and index 0 of the index buffer, on degenerate inputs. -/
theorem stem_mesh_buffer_consistency_witness :
    (buildTaperedStem tubeSegments radialSegments coincidentPoints nanFrames).normals.length =
      (buildTaperedStem tubeSegments radialSegments coincidentPoints nanFrames).positions.length :=
  (stem_mesh_buffer_consistency tubeSegments radialSegments 0 coincidentPoints nanFrames
    (by
      show (0:ℕ) ∈ stemIndices 28 10
      unfold stemIndices
      refine List.mem_flatMap.mpr ⟨0, by simp, ?_⟩
      refine List.mem_flatMap.mpr ⟨0, by simp, ?_⟩
      simp)).1

set_option maxRecDepth 4000 in
/-- C8 (counterexample): the claimed relation `len(uvs) = len(positions) / 3`
fails on the source configuration — the UV buffer is flat with two scalars per
vertex, so it has 638 entries while `len(positions) / 3 = 319`. -/
theorem stem_uv_length_counterexample :
    (buildTaperedStem tubeSegments radialSegments coincidentPoints nanFrames).uvs.length = 638 ∧
    (buildTaperedStem tubeSegments radialSegments coincidentPoints nanFrames).positions.length / 3
      = 319 ∧
    (buildTaperedStem tubeSegments radialSegments coincidentPoints nanFrames).uvs.length ≠
      (buildTaperedStem tubeSegments radialSegments coincidentPoints nanFrames).positions.length
        / 3 := by
  have h1 : (buildTaperedStem tubeSegments radialSegments coincidentPoints nanFrames).uvs.length
      = 638 := by
    show (stemUvs tubeSegments radialSegments).length = 638
    rw [stemUvs_length]
    norm_num [tubeSegments, radialSegments]
  have h2 : (buildTaperedStem tubeSegments radialSegments coincidentPoints
      nanFrames).positions.length / 3 = 319 := by
    show (stemPositions tubeSegments radialSegments coincidentPoints nanFrames).length / 3 = 319
    rw [stemPositions_length]
    norm_num [tubeSegments, radialSegments]
  exact ⟨h1, h2, by rw [h1, h2]; norm_num⟩

/-- C4 (code bug): on degenerate input — all spline control points coincident,
frame computation yielding NaN frames, the spec's own failure mode — the
builder does **not** fall back to the uniform tube: the try/catch in the
source only catches thrown exceptions, and JS floating-point arithmetic over
NaN values does not throw, so the tapered path runs to completion and returns
a mesh whose vertex data contains NaN. -/
theorem stem_degenerate_frames_no_fallback :
    (buildTaperedStem tubeSegments radialSegments coincidentPoints nanFrames).usedFallback
      = false ∧
    JSNum.nan ∈ (buildTaperedStem tubeSegments radialSegments coincidentPoints
      nanFrames).positions := by
  refine ⟨rfl, ?_⟩
  show JSNum.nan ∈ stemPositions tubeSegments radialSegments coincidentPoints nanFrames
  unfold stemPositions
  refine List.mem_flatMap.mpr ⟨0, by simp [tubeSegments], ?_⟩
  refine List.mem_flatMap.mpr ⟨0, by simp [radialSegments], ?_⟩
  have hx : (stemVertex tubeSegments radialSegments coincidentPoints nanFrames 0 0).x
      = JSNum.nan := by
    unfold stemVertex stemNormalVec coincidentPoints nanFrames
    simp
  simp only [List.mem_cons]
  exact Or.inl hx.symm

/-! ### Analytic lemmas for the damping convergence claim -/

/-- Bounds on the natural log of 1000 used to control `0.001 ^ delta`. -/
theorem log_thousand_bounds : 6 ≤ Real.log 1000 ∧ Real.log 1000 ≤ 7 := by
  constructor
  · rw [Real.le_log_iff_exp_le (by norm_num)]
    calc Real.exp 6 = Real.exp 1 ^ (6:ℕ) := by
          rw [← Real.exp_nat_mul]; norm_num
      _ ≤ 2.7182818286 ^ (6:ℕ) :=
          pow_le_pow_left₀ (Real.exp_nonneg 1) Real.exp_one_lt_d9.le 6
      _ ≤ 1000 := by norm_num
  · rw [Real.log_le_iff_le_exp (by norm_num)]
    calc (1000:ℝ) ≤ 2.7182818283 ^ (7:ℕ) := by norm_num
      _ ≤ Real.exp 1 ^ (7:ℕ) := pow_le_pow_left₀ (by norm_num) Real.exp_one_gt_d9.le 7
      _ = Real.exp 7 := by rw [← Real.exp_nat_mul]; norm_num

/-- The tenth-root substitution: `w = 0.001 ^ (delta/10)` lies in
`[0.976, 0.998]` for frame deltas between 1/240 and 1/30 s. -/
theorem tenthRoot_bounds (delta : ℝ) (hd1 : 1/240 ≤ delta) (hd2 : delta ≤ 1/30) :
    (0.96 : ℝ) ≤ (0.001:ℝ) ^ (delta/10) ∧ (0.001:ℝ) ^ (delta/10) ≤ 0.998 := by
  have hL := log_thousand_bounds
  have hlog : Real.log (0.001:ℝ) = - Real.log 1000 := by
    rw [show (0.001:ℝ) = 1000⁻¹ by norm_num, Real.log_inv]
  have hw : (0.001:ℝ) ^ (delta/10) = Real.exp (-(Real.log 1000 * (delta/10))) := by
    rw [Real.rpow_def_of_pos (by norm_num), hlog]
    ring_nf
  constructor
  · rw [hw]
    have hsmall : Real.log 1000 * (delta/10) ≤ 7/300 := by
      have h1 : Real.log 1000 * (delta/10) ≤ 7 * (delta/10) :=
        mul_le_mul_of_nonneg_right hL.2 (by linarith)
      linarith
    have := Real.add_one_le_exp (-(Real.log 1000 * (delta/10)))
    linarith
  · rw [hw]
    have hbig : 1/400 ≤ Real.log 1000 * (delta/10) := by
      have h1 : 6 * (delta/10) ≤ Real.log 1000 * (delta/10) :=
        mul_le_mul_of_nonneg_right hL.1 (by linarith)
      linarith
    have hexp := Real.add_one_le_exp (Real.log 1000 * (delta/10))
    have hpos : (0:ℝ) < 1 + Real.log 1000 * (delta/10) := by linarith
    have hinv : Real.exp (-(Real.log 1000 * (delta/10)))
        = (Real.exp (Real.log 1000 * (delta/10)))⁻¹ := by
      rw [Real.exp_neg]
    rw [hinv]
    have h2 : (1 + Real.log 1000 * (delta/10))⁻¹ ≤ (1 + 1/400 : ℝ)⁻¹ := by
      apply inv_le_inv_of_le (by norm_num) (by linarith)
    have h3 : (Real.exp (Real.log 1000 * (delta/10)))⁻¹
        ≤ (1 + Real.log 1000 * (delta/10))⁻¹ := by
      apply inv_le_inv_of_le hpos (by linarith)
    calc (Real.exp (Real.log 1000 * (delta/10)))⁻¹
        ≤ (1 + 1/400 : ℝ)⁻¹ := h3.trans h2
      _ ≤ 0.998 := by norm_num

/-- Bernoulli-type bound: for `0 < w ≤ W`,
`w^10 + 10 w^9 (W - w) ≤ W^10`. -/
theorem pow_ten_lower_tangent (w W : ℝ) (hw : 0 < w) (hwW : w ≤ W) :
    w ^ (10:ℕ) + 10 * w ^ (9:ℕ) * (W - w) ≤ W ^ (10:ℕ) := by
  have ha : (-2:ℝ) ≤ (W - w) / w := by
    have : (0:ℝ) ≤ (W - w) / w := div_nonneg (by linarith) hw.le
    linarith
  have hb := one_add_mul_le_pow ha 10
  have hw10 : (0:ℝ) < w ^ (10:ℕ) := pow_pos hw 10
  have hmul := mul_le_mul_of_nonneg_left hb hw10.le
  have h1 : w ^ (10:ℕ) * (1 + (10:ℕ) * ((W - w) / w))
      = w ^ (10:ℕ) + 10 * w ^ (9:ℕ) * (W - w) := by
    field_simp
    ring
  have h2 : w ^ (10:ℕ) * (1 + (W - w) / w) ^ (10:ℕ) = W ^ (10:ℕ) := by
    rw [show (1 + (W - w) / w) = W / w by field_simp, div_pow]
    field_simp
  rw [h1, h2] at hmul
  exact hmul

/-- Monotone comparison of the polynomial `q(w) = w^3 - 0.8 w^10 - 0.2` with
its value at 0.998, for `w ∈ [0.96, 0.998]`; hence `0.2 + 0.8 w^10 ≤ w^3`
there, since `q(0.998) > 0`. -/
theorem poly_dominates (w : ℝ) (h1 : 0.96 ≤ w) (h2 : w ≤ 0.998) :
    0.2 + 0.8 * w ^ (10:ℕ) ≤ w ^ (3:ℕ) := by
  have hw : (0:ℝ) < w := by linarith
  have hbern := pow_ten_lower_tangent w 0.998 hw h2
  have hcube : (0.998:ℝ) ^ (3:ℕ) - w ^ (3:ℕ) ≤ 3 * (0.998 - w) := by
    have hfac : (0.998:ℝ) ^ (3:ℕ) - w ^ (3:ℕ)
        = (0.998 - w) * ((0.998:ℝ) ^ 2 + 0.998 * w + w ^ 2) := by ring
    have hsum : (0.998:ℝ) ^ 2 + 0.998 * w + w ^ 2 ≤ 3 := by nlinarith
    have hstep : (0.998 - w) * ((0.998:ℝ) ^ 2 + 0.998 * w + w ^ 2)
        ≤ (0.998 - w) * 3 := mul_le_mul_of_nonneg_left hsum (by linarith)
    linarith [hfac ▸ hstep]
  have h96 : (0.96:ℝ) ^ (9:ℕ) ≤ w ^ (9:ℕ) := pow_le_pow_left₀ (by norm_num) h1 9
  have hq : (0.998:ℝ) ^ (3:ℕ) - 0.8 * (0.998:ℝ) ^ (10:ℕ) - 0.2 > 0 := by norm_num
  nlinarith [mul_le_mul_of_nonneg_right h96 (show (0:ℝ) ≤ 0.998 - w by linarith)]

/-- The per-frame error contraction factor
`r = 1 - dampingFactor * 0.8 = 0.2 + 0.8 * 0.001 ^ delta`. -/
theorem contraction_factor_eq (delta : ℝ) :
    1 - dampingFactor delta * 0.8 = 0.2 + 0.8 * (0.001:ℝ) ^ delta := by
  unfold dampingFactor
  ring

/-- Error recurrence: after `n` frames the remaining yaw error is the initial
target angle scaled by the `n`-th power of the contraction factor. -/
theorem yawIter_error (b h delta : ℝ) (n : ℕ) :
    relativeAngle b h - yawIter b h delta n
      = relativeAngle b h * (1 - dampingFactor delta * 0.8) ^ n := by
  induction n with
  | zero => simp [yawIter]
  | succ k ih =>
      show relativeAngle b h - yawUpdate b h delta (yawIter b h delta k) = _
      unfold yawUpdate threeLerp
      rw [pow_succ]
      linear_combination (1 - dampingFactor delta * 0.8) * ih

/-- Magnitude of the JS remainder: for a positive modulus the remainder is
smaller than the modulus in magnitude, for every dividend. -/
theorem jsfmodR_abs_lt (x y : ℝ) (hy : 0 < y) : |jsfmodR x y| < y := by
  unfold jsfmodR jstrunc
  rcases le_or_lt 0 (x / y) with hq | hq
  · rw [if_pos hq]
    have key : x - y * (⌊x / y⌋ : ℝ) = y * Int.fract (x / y) := by
      unfold Int.fract
      field_simp
    rw [key, abs_of_nonneg (mul_nonneg hy.le (Int.fract_nonneg _))]
    nlinarith [Int.fract_lt_one (x / y)]
  · rw [if_neg (not_le.mpr hq)]
    have key : x - y * (⌈x / y⌉ : ℝ) = y * (x / y - ⌈x / y⌉) := by
      field_simp
    have h1 : x / y ≤ (⌈x / y⌉ : ℝ) := Int.le_ceil _
    have h2 : (⌈x / y⌉ : ℝ) < x / y + 1 := Int.ceil_lt_add_one _
    rw [key, abs_of_nonpos (mul_nonpos_of_nonneg_of_nonpos hy.le (by linarith))]
    nlinarith

/-- Magnitude of the relative angle: strictly below a full turn, for every
bearing and heading. -/
theorem relativeAngle_abs_lt (b h : ℝ) : |relativeAngle b h| < 2 * π := by
  unfold relativeAngle
  rw [abs_mul, abs_of_nonneg (show (0:ℝ) ≤ π / 180 by positivity)]
  have hmod := jsfmodR_abs_lt (b - h + 360) 360 (by norm_num)
  nlinarith [hmod, pi_pos, abs_nonneg (jsfmodR (b - h + 360) 360)]

/-- Range of the relative angle for headings and bearings in `[0, 360]`:
the raw angle lies in `[0, 2π)`. -/
theorem relativeAngle_range (b h : ℝ) (hb0 : 0 ≤ b) (hb1 : b ≤ 360)
    (hh0 : 0 ≤ h) (hh1 : h ≤ 360) :
    0 ≤ relativeAngle b h ∧ relativeAngle b h < 2 * π := by
  unfold relativeAngle
  have hmod := jsfmodR_nonneg_bounds (b - h + 360) 360 (by norm_num) (by linarith)
  constructor
  · exact mul_nonneg hmod.1 (by positivity)
  · have hlt : jsfmodR (b - h + 360) 360 * (π / 180) < 360 * (π / 180) :=
      mul_lt_mul_of_pos_right hmod.2 (by positivity)
    nlinarith [hlt]

/-- Contraction power bound: under the claim's frame-delta range and
`n * delta ≥ 3` simulated seconds, the contraction factor to the `n` is
below 1/360. -/
theorem contraction_pow_small (delta : ℝ) (n : ℕ) (hd1 : 1/240 ≤ delta)
    (hd2 : delta ≤ 1/30) (hn : 3 ≤ (n:ℝ) * delta) :
    (0.2 + 0.8 * (0.001:ℝ) ^ delta) ^ n < 1/360 := by
  have hw := tenthRoot_bounds delta hd1 hd2
  have hwpos : (0:ℝ) < (0.001:ℝ) ^ (delta/10) := Real.rpow_pos_of_pos (by norm_num) _
  have hw10 : ((0.001:ℝ) ^ (delta/10)) ^ (10:ℕ) = (0.001:ℝ) ^ delta := by
    rw [← Real.rpow_natCast ((0.001:ℝ) ^ (delta/10)) 10,
      ← Real.rpow_mul (by norm_num : (0:ℝ) ≤ 0.001)]
    norm_num
  have hrw : 0.2 + 0.8 * (0.001:ℝ) ^ delta ≤ ((0.001:ℝ) ^ (delta/10)) ^ (3:ℕ) := by
    rw [← hw10]
    exact poly_dominates _ hw.1 hw.2
  have hrpos : (0:ℝ) ≤ 0.2 + 0.8 * (0.001:ℝ) ^ delta := by
    have := Real.rpow_pos_of_pos (show (0:ℝ) < 0.001 by norm_num) delta
    linarith
  have hpow1 : (0.2 + 0.8 * (0.001:ℝ) ^ delta) ^ n
      ≤ (((0.001:ℝ) ^ (delta/10)) ^ (3:ℕ)) ^ n := pow_le_pow_left₀ hrpos hrw n
  have hpow2 : (((0.001:ℝ) ^ (delta/10)) ^ (3:ℕ)) ^ n
      = (0.001:ℝ) ^ ((delta/10) * ((3 * n : ℕ) : ℝ)) := by
    rw [← pow_mul, ← Real.rpow_natCast ((0.001:ℝ) ^ (delta/10)) (3 * n),
      ← Real.rpow_mul (by norm_num : (0:ℝ) ≤ 0.001)]
  have hexp : (9/10 : ℝ) ≤ (delta/10) * ((3 * n : ℕ) : ℝ) := by
    push_cast
    nlinarith
  have hpow3 : (0.001:ℝ) ^ ((delta/10) * ((3 * n : ℕ) : ℝ))
      ≤ (0.001:ℝ) ^ ((9:ℝ)/10) :=
    Real.rpow_le_rpow_of_exponent_ge (by norm_num) (by norm_num) hexp
  have hfinal : (0.001:ℝ) ^ ((9:ℝ)/10) < 1/360 := by
    have hu0 : (0:ℝ) ≤ (0.001:ℝ) ^ ((9:ℝ)/10) := (Real.rpow_pos_of_pos (by norm_num) _).le
    have hu10 : ((0.001:ℝ) ^ ((9:ℝ)/10)) ^ (10:ℕ) = (0.001:ℝ) ^ (9:ℕ) := by
      rw [← Real.rpow_natCast ((0.001:ℝ) ^ ((9:ℝ)/10)) 10,
        ← Real.rpow_mul (by norm_num : (0:ℝ) ≤ 0.001),
        show ((9:ℝ)/10) * ((10:ℕ):ℝ) = ((9:ℕ):ℝ) by norm_num,
        Real.rpow_natCast]
    have hcmp : ((0.001:ℝ) ^ ((9:ℝ)/10)) ^ (10:ℕ) < (1/360:ℝ) ^ (10:ℕ) := by
      rw [hu10]
      norm_num
    exact lt_of_pow_lt_pow_left₀ 10 (by norm_num) hcmp
  calc (0.2 + 0.8 * (0.001:ℝ) ^ delta) ^ n
      ≤ (0.001:ℝ) ^ ((delta/10) * ((3 * n : ℕ) : ℝ)) := by rw [← hpow2]; exact hpow1
    _ ≤ (0.001:ℝ) ^ ((9:ℝ)/10) := hpow3
    _ < 1/360 := hfinal

/-- C3 (confirmed): for every constant bearing and heading and any fixed
frame delta between 1/240 s and 1/30 s, after `n` frames with
`n * delta ≥ 3` simulated seconds the yaw is within 1 degree (`π/180`) of the
raw relative angle, starting from yaw 0 — frame-rate independently; and in the
claim's scenario `targetBearing = 90`, `deviceHeading = 0` the target angle is
exactly `π/2`. -/
theorem useFlowerRotation_converges (b h delta : ℝ) (n : ℕ)
    (hd1 : 1/240 ≤ delta) (hd2 : delta ≤ 1/30) (hn : 3 ≤ (n:ℝ) * delta) :
    |yawIter b h delta n - relativeAngle b h| < π / 180 ∧
    relativeAngle 90 0 = π / 2 := by
  constructor
  · have herr := yawIter_error b h delta n
    have habs := relativeAngle_abs_lt b h
    have hrn := contraction_pow_small delta n hd1 hd2 hn
    rw [contraction_factor_eq] at herr
    have hrpos : (0:ℝ) ≤ 0.2 + 0.8 * (0.001:ℝ) ^ delta := by
      have := Real.rpow_pos_of_pos (show (0:ℝ) < 0.001 by norm_num) delta
      linarith
    have hpn : (0:ℝ) ≤ (0.2 + 0.8 * (0.001:ℝ) ^ delta) ^ n := pow_nonneg hrpos n
    rw [abs_sub_comm, herr, abs_mul, abs_of_nonneg hpn]
    calc |relativeAngle b h| * (0.2 + 0.8 * (0.001:ℝ) ^ delta) ^ n
        ≤ 2 * π * (0.2 + 0.8 * (0.001:ℝ) ^ delta) ^ n :=
          mul_le_mul_of_nonneg_right habs.le hpn
      _ < 2 * π * (1/360) := by
          exact mul_lt_mul_of_pos_left hrn (by positivity)
      _ = π / 180 := by ring
  · unfold relativeAngle jsfmodR jstrunc
    have hq : ((90:ℝ) - 0 + 360) / 360 = 5/4 := by norm_num
    rw [hq, if_pos (by norm_num : (0:ℝ) ≤ 5/4),
      show ⌊(5/4 : ℝ)⌋ = 1 by rw [Int.floor_eq_iff] <;> norm_num]
    push_cast
    ring

/-- Witness for C3 at bearing 90°, heading 0°, 30 fps, 90 frames (3 s). -/
theorem useFlowerRotation_converges_witness :
    |yawIter 90 0 (1/30) 90 - relativeAngle 90 0| < π / 180 :=
  (useFlowerRotation_converges 90 0 (1/30) 90 (by norm_num) (by norm_num)
    (by norm_num)).1

/-- C10 (confirmed): the yaw update applies no shortest-path wrapping — for
any frame delta `≥ 0` the interpolation weight `dampingFactor * 0.8` lies in
`[0, 1)`, so the updated yaw is a convex combination trapped in the closed
interval between the previous yaw and the raw relative angle; consequently the
yaw stays inside `[0, 2π)` whenever yaw and target are there, and when the
target jumps across the 0°/360° seam (say from 359° to 1°) the yaw moves
through the interior interval toward the small raw angle instead of taking the
short path across the wrap. -/
theorem yawUpdate_no_wrap (delta c b h : ℝ) (hd : 0 ≤ delta) :
    (0 ≤ dampingFactor delta * 0.8 ∧ dampingFactor delta * 0.8 < 1) ∧
    (min c (relativeAngle b h) ≤ yawUpdate b h delta c ∧
     yawUpdate b h delta c ≤ max c (relativeAngle b h)) ∧
    (0 ≤ c → c < 2 * π → 0 ≤ relativeAngle b h → relativeAngle b h < 2 * π →
      0 ≤ yawUpdate b h delta c ∧ yawUpdate b h delta c < 2 * π) ∧
    (0 ≤ b → b ≤ 360 → 0 ≤ h → h ≤ 360 →
      0 ≤ relativeAngle b h ∧ relativeAngle b h < 2 * π) := by
  have hx1 : (0.001:ℝ) ^ delta ≤ 1 :=
    Real.rpow_le_one (by norm_num) (by norm_num) hd
  have hx0 : (0:ℝ) < (0.001:ℝ) ^ delta := Real.rpow_pos_of_pos (by norm_num) delta
  have hk0 : 0 ≤ dampingFactor delta * 0.8 := by
    unfold dampingFactor
    nlinarith
  have hk1 : dampingFactor delta * 0.8 < 1 := by
    unfold dampingFactor
    nlinarith
  set k := dampingFactor delta * 0.8 with hk
  set a := relativeAngle b h with ha
  have h1k : (0:ℝ) ≤ 1 - k := by linarith
  have hupd : yawUpdate b h delta c = (1 - k) * c + k * a := rfl
  have hmin : min c a ≤ yawUpdate b h delta c := by
    rw [hupd]
    have p1 : (1 - k) * min c a ≤ (1 - k) * c :=
      mul_le_mul_of_nonneg_left (min_le_left c a) h1k
    have p2 : k * min c a ≤ k * a :=
      mul_le_mul_of_nonneg_left (min_le_right c a) hk0
    nlinarith
  have hmax : yawUpdate b h delta c ≤ max c a := by
    rw [hupd]
    have p1 : (1 - k) * c ≤ (1 - k) * max c a :=
      mul_le_mul_of_nonneg_left (le_max_left c a) h1k
    have p2 : k * a ≤ k * max c a :=
      mul_le_mul_of_nonneg_left (le_max_right c a) hk0
    nlinarith
  refine ⟨⟨hk0, hk1⟩, ⟨hmin, hmax⟩, fun hc0 hc2 ha0 ha2 => ⟨?_, ?_⟩,
    fun hb0 hb1 hh0 hh1 => relativeAngle_range b h hb0 hb1 hh0 hh1⟩
  · exact le_trans (le_min hc0 ha0) hmin
  · exact lt_of_le_of_lt hmax (max_lt hc2 ha2)

/-- Witness for C10 at `delta = 1/60`, yaw 359° and target crossing to 1°. -/
theorem yawUpdate_no_wrap_witness :
    0 ≤ dampingFactor (1/60) * 0.8 ∧ dampingFactor (1/60) * 0.8 < 1 :=
  (yawUpdate_no_wrap (1/60) (359 * (π/180)) 1 0 (by norm_num)).1
